import Mathlib

/-!
Shallow embedding of the pygame-menu navigation / selection / layout /
event-dispatch core (`src/pygameMenu/menu.py`) and of the RGB color input
widget (`src/pygame_menu/widgets/widget/colorinput.py`), together with
theorems settling the specification claims about them.

Conventions:
* pygame rectangles are modelled as integer quadruples;
* widgets are modelled through the capability interface the menu consumes
  (identity, selectability, rectangle) - per-widget visual state that the
  menu core never reads back (the `selected` flag set by `set_selected`,
  fonts, shadows) is not carried;
* Python `%` on ints is `Int.emod` (both give a result in `[0, n)` for a
  positive modulus);
* the recursion of `Menu._select` is bounded by fuel; one full pass plus
  one step always suffices (proved below), matching the source's
  one-full-pass termination argument;
* scroll-area effects are modelled as an `Option Rect` value: the argument
  of the single `scroll_to_rect` call a selection can issue, or `none`.
-/

namespace PygameMenu

/-- A pygame `Rect` as consumed by the menu core: position and size. -/
structure Rect where
  x : Int
  y : Int
  w : Int
  h : Int
deriving Repr, DecidableEq

/-- The widget capability interface consumed by `Menu._select`,
`Menu._append_widget` and `Menu._check_id_duplicated`:
`get_id`, `is_selectable`, `get_rect`. -/
structure Widget where
  id : String
  selectable : Bool
  rect : Rect
deriving Repr, DecidableEq

/-- Placeholder widget used for out-of-range list access; every theorem
below only accesses indices that are in range. -/
def wdefault : Widget :=
  { id := "", selectable := false, rect := { x := 0, y := 0, w := 0, h := 0 } }

/-- The per-menu selection state of `Menu`: the widget list
(`self._widgets`), the selected index (`self._index`) and the
"some widget has been selected" flag (`self._widget_selected`). -/
structure MenuState where
  widgets : List Widget
  index : Nat
  widgetSelected : Bool
deriving Repr, DecidableEq

/-- Placeholder menu state for out-of-range access. -/
def mdefault : MenuState :=
  { widgets := [], index := 0, widgetSelected := false }

/-- The rectangle passed to `scroll_to_rect` by `Menu._select`
(menu.py lines 1562-1565): the new widget's rect, with `y` forced to `0`
when the new index is `0`. -/
def scrollTarget (w : Widget) (n : Nat) : Rect :=
  if n = 0 then { w.rect with y := 0 } else w.rect

/-- `Menu._select` (menu.py lines 1532-1565), acting on the state of
`self._top._current`.  Mirrors the source line by line:
empty-list guard, `new_index %= len(...)`, early return when the index is
unchanged, the skip-unselectable recursion guarded by `_widget_selected`,
and the final `scroll_to_rect` request.  The recursion is run on fuel;
`widgets.length + 1` units always suffice from the states the theorems
consider (the chain stops at the first selectable index, and the
currently selected index is selectable). -/
def selectFuel (s : MenuState) : Int → Nat → MenuState × Option Rect
  | _, 0 => (s, none)
  | t, fuel + 1 =>
    if s.widgets.length = 0 then (s, none)
    else if (t % (s.widgets.length : Int)).toNat = s.index then (s, none)
    else if (s.widgets.getD (t % (s.widgets.length : Int)).toNat wdefault).selectable then
      ({ s with index := (t % (s.widgets.length : Int)).toNat },
        some (scrollTarget
          (s.widgets.getD (t % (s.widgets.length : Int)).toNat wdefault)
          (t % (s.widgets.length : Int)).toNat))
    else if s.widgetSelected then
      selectFuel s (((t % (s.widgets.length : Int)).toNat : Int) + 1) fuel
    else
      (s, none)

/-- `Menu._select` with the always-sufficient fuel budget. -/
def select (s : MenuState) (t : Int) : MenuState × Option Rect :=
  selectFuel s t (s.widgets.length + 1)

/-- Modelled from the spec (section 4.2 and claim C4 wording): the nearest
subsequent selectable widget index starting from `start`, wrapping modulo
the widget count, `none` when no selectable widget is found within the
given number of steps.  This is the spec-side description that the
source-side `select` is compared against. -/
def specNearestSelectable (ws : List Widget) : Nat → Nat → Option Nat
  | _, 0 => none
  | start, k + 1 =>
    if (ws.getD (start % ws.length) wdefault).selectable then some (start % ws.length)
    else specNearestSelectable ws (start + 1) k

/-- The claim C2 invariant as stated in the spec: the selected index is a
selectable widget's index, unless the menu has no selectable widgets. -/
def SelInv (s : MenuState) : Prop :=
  s.widgets.any Widget.selectable = true →
    s.index < s.widgets.length ∧ (s.widgets.getD s.index wdefault).selectable = true

instance (s : MenuState) : Decidable (SelInv s) := by
  unfold SelInv; infer_instance

/-- Consistency of the selection state with the `_widget_selected` flag:
the flag is set precisely when some widget is selectable, and when set the
selected index denotes a selectable widget.  This holds on every state
produced by `_append_widget` and `_select` from a fresh menu, and is what
`Menu.clear` fails to restore. -/
def GoodState (s : MenuState) : Prop :=
  s.widgetSelected = s.widgets.any Widget.selectable ∧
    (s.widgetSelected = true →
      s.index < s.widgets.length ∧
        (s.widgets.getD s.index wdefault).selectable = true)

instance (s : MenuState) : Decidable (GoodState s) := by
  unfold GoodState; infer_instance

/-- `Menu._append_widget` (menu.py lines 815-832): append to the widget
list; when no widget was selected yet and the new widget is selectable,
select it (`self._index = len(self._widgets) - 1`).  The surface-cache
invalidation (`self._widgets_surface = None`) and the columns*rows
capacity assertion concern fields not carried by `MenuState`. -/
def appendWidget (s : MenuState) (w : Widget) : MenuState :=
  let ws := s.widgets ++ [w]
  if !s.widgetSelected && w.selectable then
    { widgets := ws, index := ws.length - 1, widgetSelected := true }
  else
    { s with widgets := ws }

/-- The widget-list effect of `Menu.clear` (menu.py lines 1478-1486):
`del self._current._widgets[:]`.  The `_index` and `_widget_selected`
fields are left untouched by the source. -/
def clearWidgets (s : MenuState) : MenuState :=
  { s with widgets := [] }

lemma selectFuel_succ (s : MenuState) (t : Int) (fuel : Nat) :
    selectFuel s t (fuel + 1) =
      if s.widgets.length = 0 then (s, none)
      else if (t % (s.widgets.length : Int)).toNat = s.index then (s, none)
      else if (s.widgets.getD (t % (s.widgets.length : Int)).toNat wdefault).selectable then
        ({ s with index := (t % (s.widgets.length : Int)).toNat },
          some (scrollTarget
            (s.widgets.getD (t % (s.widgets.length : Int)).toNat wdefault)
            (t % (s.widgets.length : Int)).toNat))
      else if s.widgetSelected then
        selectFuel s (((t % (s.widgets.length : Int)).toNat : Int) + 1) fuel
      else
        (s, none) := rfl

lemma emod_toNat_lt (t : Int) {L : Nat} (h : 0 < L) : (t % (L : Int)).toNat < L := by
  have h0 : (0 : Int) < (L : Int) := by exact_mod_cast h
  have h1 := Int.emod_nonneg t (ne_of_gt h0)
  have h2 := Int.emod_lt_of_pos t h0
  omega

lemma natCast_emod_toNat (a L : Nat) : (((a : Int)) % (L : Int)).toNat = a % L := by
  rw [← Int.natCast_mod, Int.toNat_natCast]

lemma selectable_getD_lt {ws : List Widget} {i : Nat}
    (h : (ws.getD i wdefault).selectable = true) : i < ws.length := by
  by_contra hlt
  rw [List.getD_eq_default ws wdefault (by omega)] at h
  exact Bool.false_ne_true h

lemma any_selectable_false_getD {ws : List Widget}
    (h : ws.any Widget.selectable = false) (n : Nat) :
    (ws.getD n wdefault).selectable = false := by
  by_cases hn : n < ws.length
  · have hmem : ws.getD n wdefault ∈ ws := by
      rw [List.getD_eq_getElem?_getD, List.getElem?_eq_getElem hn]
      exact List.getElem_mem hn
    have := List.any_eq_false.mp h _ hmem
    simpa using this
  · rw [List.getD_eq_default ws wdefault (by omega)]
    rfl

lemma specNearestSelectable_succ (ws : List Widget) (start k : Nat) :
    specNearestSelectable ws start (k + 1) =
      if (ws.getD (start % ws.length) wdefault).selectable then some (start % ws.length)
      else specNearestSelectable ws (start + 1) k := rfl

lemma specNearestSelectable_mod (ws : List Widget) :
    ∀ (k a b : Nat), a % ws.length = b % ws.length →
      specNearestSelectable ws a k = specNearestSelectable ws b k := by
  intro k
  induction k with
  | zero => intro a b _; rfl
  | succ k ih =>
    intro a b hab
    rw [specNearestSelectable_succ, specNearestSelectable_succ, hab]
    by_cases hsel : (ws.getD (b % ws.length) wdefault).selectable = true
    · rw [if_pos hsel, if_pos hsel]
    · rw [if_neg hsel, if_neg hsel]
      refine ih (a + 1) (b + 1) ?_
      rw [Nat.add_mod a 1, hab, ← Nat.add_mod]

/-- Every run of the `Menu._select` recursion either leaves the state
untouched and issues no scroll request, or moves the index to some
in-range selectable widget different from the old one and issues exactly
one `scroll_to_rect` request for it. -/
lemma selectFuel_cases (s : MenuState) :
    ∀ (k : Nat) (t : Int),
      selectFuel s t k = (s, none) ∨
        ∃ n, n ≠ s.index ∧ n < s.widgets.length ∧
          (s.widgets.getD n wdefault).selectable = true ∧
          selectFuel s t k =
            ({ s with index := n }, some (scrollTarget (s.widgets.getD n wdefault) n)) := by
  intro k
  induction k with
  | zero => intro t; exact Or.inl rfl
  | succ k ih =>
    intro t
    rw [selectFuel_succ]
    by_cases hlen : s.widgets.length = 0
    · rw [if_pos hlen]; exact Or.inl rfl
    · have hpos : 0 < s.widgets.length := Nat.pos_of_ne_zero hlen
      have hnL : (t % (s.widgets.length : Int)).toNat < s.widgets.length :=
        emod_toNat_lt t hpos
      rw [if_neg hlen]
      by_cases hni : (t % (s.widgets.length : Int)).toNat = s.index
      · rw [if_pos hni]; exact Or.inl rfl
      · rw [if_neg hni]
        by_cases hsel :
            (s.widgets.getD (t % (s.widgets.length : Int)).toNat wdefault).selectable = true
        · rw [if_pos hsel]
          exact Or.inr ⟨_, hni, hnL, hsel, rfl⟩
        · rw [if_neg hsel]
          by_cases hws : s.widgetSelected = true
          · rw [if_pos hws]
            exact ih (((t % (s.widgets.length : Int)).toNat : Int) + 1)
          · rw [if_neg hws]; exact Or.inl rfl

/-- On a state whose currently selected widget is selectable and whose
`_widget_selected` flag is set, the `Menu._select` recursion agrees with
the spec's description: starting from the normalized target it stops at
the nearest subsequent selectable index (wrapping), provided enough fuel
to reach one. -/
lemma selectFuel_good (s : MenuState)
    (hws : s.widgetSelected = true)
    (hsel : (s.widgets.getD s.index wdefault).selectable = true) :
    ∀ (k : Nat) (t : Int),
      (∃ j, j < k ∧
        (s.widgets.getD (((t % (s.widgets.length : Int)).toNat + j) % s.widgets.length)
          wdefault).selectable = true) →
      ∃ m, specNearestSelectable s.widgets ((t % (s.widgets.length : Int)).toNat) k = some m ∧
        ((m = s.index ∧ selectFuel s t k = (s, none)) ∨
          (m ≠ s.index ∧ selectFuel s t k =
            ({ s with index := m }, some (scrollTarget (s.widgets.getD m wdefault) m)))) := by
  have hidx : s.index < s.widgets.length := selectable_getD_lt hsel
  have hpos : 0 < s.widgets.length := by omega
  have hlen : ¬ s.widgets.length = 0 := by omega
  intro k
  induction k with
  | zero =>
    rintro t ⟨j, hj, -⟩
    omega
  | succ k ih =>
    rintro t ⟨j, hj, hjsel⟩
    have hnL : (t % (s.widgets.length : Int)).toNat < s.widgets.length :=
      emod_toNat_lt t hpos
    have hmod : (t % (s.widgets.length : Int)).toNat % s.widgets.length =
        (t % (s.widgets.length : Int)).toNat := Nat.mod_eq_of_lt hnL
    rw [selectFuel_succ, specNearestSelectable_succ, hmod, if_neg hlen]
    by_cases hnsel :
        (s.widgets.getD (t % (s.widgets.length : Int)).toNat wdefault).selectable = true
    · refine ⟨(t % (s.widgets.length : Int)).toNat, by rw [if_pos hnsel], ?_⟩
      by_cases hni : (t % (s.widgets.length : Int)).toNat = s.index
      · exact Or.inl ⟨hni, by rw [if_pos hni]⟩
      · exact Or.inr ⟨hni, by rw [if_neg hni, if_pos hnsel]⟩
    · have hni : ¬ (t % (s.widgets.length : Int)).toNat = s.index := by
        intro h
        rw [h] at hnsel
        exact hnsel hsel
      rw [if_neg hnsel, if_neg hni, if_neg hnsel, if_pos hws]
      have hcast : ((((t % (s.widgets.length : Int)).toNat : Int) + 1) %
          (s.widgets.length : Int)).toNat =
          ((t % (s.widgets.length : Int)).toNat + 1) % s.widgets.length := by
        have : (((t % (s.widgets.length : Int)).toNat : Int) + 1) =
            (((t % (s.widgets.length : Int)).toNat + 1 : Nat) : Int) := by push_cast; ring
        rw [this, natCast_emod_toNat]
      -- The witness for the recursive call: the outer witness j cannot be 0.
      have hj0 : j ≠ 0 := by
        intro h
        rw [h, Nat.add_zero, hmod] at hjsel
        exact Bool.false_ne_true ((Bool.not_eq_true _).mp hnsel ▸ hjsel)
      have hside : ∃ i, i < k ∧
          (s.widgets.getD
            ((((((t % (s.widgets.length : Int)).toNat : Int) + 1) %
              (s.widgets.length : Int)).toNat + i) % s.widgets.length)
            wdefault).selectable = true := by
        refine ⟨j - 1, by omega, ?_⟩
        rw [hcast]
        have harith :
            (((t % (s.widgets.length : Int)).toNat + 1) % s.widgets.length + (j - 1)) %
              s.widgets.length =
            ((t % (s.widgets.length : Int)).toNat + j) % s.widgets.length := by
          conv_lhs => rw [Nat.add_mod]
          rw [Nat.mod_mod_of_dvd _ (dvd_refl s.widgets.length), ← Nat.add_mod]
          have : (t % (s.widgets.length : Int)).toNat + 1 + (j - 1) =
              (t % (s.widgets.length : Int)).toNat + j := by omega
          rw [this]
        rw [harith]
        exact hjsel
      obtain ⟨m, hm1, hm2⟩ := ih (((t % (s.widgets.length : Int)).toNat : Int) + 1) hside
      refine ⟨m, ?_, hm2⟩
      rw [← hm1, hcast]
      refine specNearestSelectable_mod s.widgets k _ _ ?_
      rw [Nat.mod_mod_of_dvd _ (dvd_refl s.widgets.length)]

/-- C4 amended: for every menu whose selection state is consistent with
the Selection Controller's state machine (`GoodState`: the
`_widget_selected` flag is set iff some widget is selectable, and the
selected index denotes a selectable widget when it is set) and every
call `select(target_index)`, the target is normalized modulo the widget
count; if the widget at the normalized index is not selectable the
selection advances to the nearest subsequent selectable widget
(wrapping), terminating within one full pass (the fuel
`widgets.length + 1` in `select`); if zero widgets are selectable the
selection state is left as-is and the call returns.  Flag-stale states
reachable through `clear` (see the C2 counterexample) are excluded: the
original claim fails on them, see the C4 counterexample below. -/
theorem claim_C4_select_skips_unselectable (s : MenuState) (t : Int) (hg : GoodState s) :
    (s.widgets.any Widget.selectable = true →
      specNearestSelectable s.widgets ((t % (s.widgets.length : Int)).toNat)
          (s.widgets.length + 1) = some ((select s t).1.index) ∧
        (select s t).1.widgets = s.widgets ∧
        (select s t).1.widgetSelected = s.widgetSelected) ∧
    (s.widgets.any Widget.selectable = false → select s t = (s, none)) := by
  obtain ⟨hflag, hgood⟩ := hg
  constructor
  · intro hany
    have hws : s.widgetSelected = true := by rw [hflag, hany]
    obtain ⟨hidx, hsel⟩ := hgood hws
    have hpos : 0 < s.widgets.length := by omega
    have hex : ∃ j, j < s.widgets.length + 1 ∧
        (s.widgets.getD (((t % (s.widgets.length : Int)).toNat + j) % s.widgets.length)
          wdefault).selectable = true := by
      have hnL : (t % (s.widgets.length : Int)).toNat < s.widgets.length :=
        emod_toNat_lt t hpos
      refine ⟨(s.index + s.widgets.length - (t % (s.widgets.length : Int)).toNat) %
        s.widgets.length, by
          have := Nat.mod_lt
            (s.index + s.widgets.length - (t % (s.widgets.length : Int)).toNat) hpos
          omega, ?_⟩
      have h1 : ((t % (s.widgets.length : Int)).toNat +
            (s.index + s.widgets.length - (t % (s.widgets.length : Int)).toNat) %
              s.widgets.length) % s.widgets.length =
          ((t % (s.widgets.length : Int)).toNat +
            (s.index + s.widgets.length - (t % (s.widgets.length : Int)).toNat)) %
              s.widgets.length := by
        conv_lhs => rw [Nat.add_mod]
        rw [Nat.mod_mod_of_dvd _ (dvd_refl s.widgets.length), ← Nat.add_mod]
      have h2 : (t % (s.widgets.length : Int)).toNat +
          (s.index + s.widgets.length - (t % (s.widgets.length : Int)).toNat) =
          s.index + s.widgets.length := by omega
      rw [h1, h2, Nat.add_mod_right, Nat.mod_eq_of_lt hidx]
      exact hsel
    obtain ⟨m, hm1, hm2⟩ := selectFuel_good s hws hsel (s.widgets.length + 1) t hex
    rcases hm2 with ⟨hm, heq⟩ | ⟨hm, heq⟩
    · unfold select
      rw [heq]
      exact ⟨by rw [hm1, hm], rfl, rfl⟩
    · unfold select
      rw [heq]
      exact ⟨hm1, rfl, rfl⟩
  · intro hany
    have hws : s.widgetSelected = false := by rw [hflag, hany]
    unfold select
    rw [selectFuel_succ]
    by_cases hlen : s.widgets.length = 0
    · rw [if_pos hlen]
    · rw [if_neg hlen]
      by_cases hni : (t % (s.widgets.length : Int)).toNat = s.index
      · rw [if_pos hni]
      · rw [if_neg hni,
          if_neg (by rw [any_selectable_false_getD hany]; exact Bool.false_ne_true),
          if_neg (by rw [hws]; exact Bool.false_ne_true)]

/-- Sample selectable button widget. -/
def btn1 : Widget :=
  { id := "b1", selectable := true, rect := { x := 0, y := 0, w := 120, h := 40 } }

/-- Sample non-selectable label widget. -/
def lbl1 : Widget :=
  { id := "l1", selectable := false, rect := { x := 0, y := 50, w := 120, h := 40 } }

/-- Second sample selectable button widget. -/
def btn2 : Widget :=
  { id := "b2", selectable := true, rect := { x := 0, y := 100, w := 120, h := 40 } }

/-- A menu state of three widgets (button, label, button) with the
selection on the first. -/
def exSelState : MenuState :=
  { widgets := [btn1, lbl1, btn2], index := 0, widgetSelected := true }

/-- Witness for C4 at a concrete input: the state is `GoodState`, and
selecting target `1` (a non-selectable label) lands on the nearest
subsequent selectable index, `2`. -/
theorem claim_C4_witness :
    GoodState exSelState ∧
      specNearestSelectable exSelState.widgets
          ((1 % (exSelState.widgets.length : Int)).toNat)
          (exSelState.widgets.length + 1) = some ((select exSelState 1).1.index) :=
  ⟨by decide, ((claim_C4_select_skips_unselectable exSelState 1 (by decide)).1 (by decide)).1⟩

/-- C6: any selection that lands on index `0` (changing the index) issues
a `scroll_to_rect` request whose `y` coordinate is `0`, regardless of the
widget's own rectangle offset (menu.py lines 1563-1565). -/
theorem claim_C6_scroll_top (s : MenuState) (t : Int)
    (h0 : (select s t).1.index = 0) (hne : s.index ≠ 0) :
    ∃ r, (select s t).2 = some r ∧ r.y = 0 := by
  rcases selectFuel_cases s (s.widgets.length + 1) t with h | ⟨n, hni, hnL, hsel, heq⟩
  · unfold select at h0
    rw [h] at h0
    exact absurd h0 hne
  · unfold select at h0 ⊢
    rw [heq] at h0 ⊢
    have hn0 : n = 0 := h0
    refine ⟨scrollTarget (s.widgets.getD n wdefault) n, rfl, ?_⟩
    rw [hn0]
    rfl

/-- A menu state selected away from the top (index 2 of three widgets),
whose first widget sits at a nonzero y offset. -/
def exSelState2 : MenuState :=
  { widgets := [{ btn1 with rect := { x := 0, y := 77, w := 120, h := 40 } }, lbl1, btn2],
    index := 2, widgetSelected := true }

/-- Witness for C6 at a concrete input: selecting target `0` from index
`2` lands on index `0` and the issued scroll rectangle has `y = 0` even
though the widget's own rectangle has `y = 77`. -/
theorem claim_C6_witness :
    (select exSelState2 0).1.index = 0 ∧ (2 : Nat) ≠ 0 ∧
      ∃ r, (select exSelState2 0).2 = some r ∧ r.y = 0 :=
  ⟨by decide, by decide, claim_C6_scroll_top exSelState2 0 (by decide) (by decide)⟩

/-- The state reached from a fresh menu by the public call sequence:
add a button, `clear()`, add a label, add a button.  `clear` empties the
widget list but leaves `_widget_selected = True`, so the following adds
never re-run the auto-selection. -/
def clearThenAddState : MenuState :=
  appendWidget (appendWidget (clearWidgets (appendWidget mdefault btn1)) lbl1) btn2

/-- C2 counterexample: the claim says every reachable state has
`selected_index` at a selectable widget or no selectable widgets at all,
and that adding a widget, select, reset and clear all preserve this.  The
reachable state `clearThenAddState` (button added, menu cleared, label
added, button added) has a selectable widget (`btn2` at index 1) while
`selected_index = 0` points at the non-selectable label. -/
theorem claim_C2_counterexample : ¬ SelInv clearThenAddState := by decide

/-- C2 amended: on states whose `_widget_selected` flag is consistent
(`GoodState`), the invariant holds and is preserved by `_append_widget`
and `_select`; `clear` itself leaves a state satisfying the invariant
(no widgets at all), but breaks flag consistency, which is what lets the
counterexample sequence violate the invariant afterwards. -/
theorem claim_C2_amended (s : MenuState) (w : Widget) (t : Int) (hg : GoodState s) :
    SelInv s ∧ GoodState (appendWidget s w) ∧ GoodState (select s t).1 ∧
      SelInv (clearWidgets s) := by
  obtain ⟨hflag, hgood⟩ := hg
  refine ⟨?_, ?_, ?_, ?_⟩
  · intro hany
    exact hgood (by rw [hflag, hany])
  · unfold appendWidget
    by_cases hc : (!s.widgetSelected && w.selectable) = true
    · rw [if_pos hc]
      obtain ⟨h1, h2⟩ : s.widgetSelected = false ∧ w.selectable = true := by
        simpa using hc
      constructor
      · rw [List.any_append]
        simp [h2]
      · intro _
        have hlen : (s.widgets ++ [w]).length - 1 = s.widgets.length := by simp
        constructor
        · rw [hlen]
          simp
        · rw [hlen, List.getD_append_right s.widgets [w] wdefault s.widgets.length le_rfl]
          simpa using h2
    · rw [if_neg hc]
      constructor
      · rw [List.any_append]
        by_cases hwsb : s.widgetSelected = true
        · rw [hwsb] at hflag ⊢
          rw [← hflag]
          rfl
        · have hwsf : s.widgetSelected = false := by revert hwsb; cases s.widgetSelected <;> simp
          have hwf : w.selectable = false := by
            revert hc
            rw [hwsf]
            cases w.selectable <;> simp
          rw [hwsf] at hflag ⊢
          rw [← hflag]
          simp [hwf]
      · intro hws
        obtain ⟨hidx, hsel⟩ := hgood hws
        refine ⟨by simpa using Nat.lt_succ_of_lt (by simpa using hidx), ?_⟩
        rw [List.getD_append s.widgets [w] wdefault s.index hidx]
        exact hsel
  · rcases selectFuel_cases s (s.widgets.length + 1) t with h | ⟨n, hni, hnL, hsel, heq⟩
    · unfold select
      rw [h]
      exact ⟨hflag, hgood⟩
    · unfold select
      rw [heq]
      exact ⟨hflag, fun _ => ⟨hnL, hsel⟩⟩
  · intro h
    simp [clearWidgets] at h

/-- Witness for C2 amended at a concrete input: `exSelState` is
consistent, satisfies the invariant, and stays consistent after an
append and a select. -/
theorem claim_C2_amended_witness :
    GoodState exSelState ∧
      (SelInv exSelState ∧ GoodState (appendWidget exSelState lbl1) ∧
        GoodState (select exSelState 1).1 ∧ SelInv (clearWidgets exSelState)) :=
  ⟨by decide, claim_C2_amended exSelState lbl1 1 (by decide)⟩

/-- C4 counterexample: the claim quantifies over every menu, but on the
reachable state `clearThenAddState` (add button, `clear()`, add label,
add button - reached through public operations, see the C2
counterexample) it fails: the target `0` normalizes to index `0`, whose
widget (the label) is not selectable, and a selectable widget exists at
index `1`, yet `_select` hits the index-unchanged early return of
menu.py:1544 before the selectability check and leaves the selection on
the non-selectable label - it does not advance to the nearest subsequent
selectable widget, and the zero-selectable escape clause does not
apply. -/
theorem claim_C4_counterexample :
    ((0 : Int) % (clearThenAddState.widgets.length : Int)).toNat = 0 ∧
      (clearThenAddState.widgets.getD 0 wdefault).selectable = false ∧
      clearThenAddState.widgets.any Widget.selectable = true ∧
      (clearThenAddState.widgets.getD 1 wdefault).selectable = true ∧
      select clearThenAddState 0 = (clearThenAddState, none) ∧
      (select clearThenAddState 0).1.index = 0 := by
  decide

/-! ### Navigation stack -/

/-- The tree-level navigation state held on the top menu of a tree: the
shared `_current` pointer and the `_prev` chain.  The `[prev, menu]`
linked list of menu.py is a stack of menu indices, most recent first;
the per-menu selection states live in `menus`, indexed by menu id. -/
structure Nav where
  menus : List MenuState
  current : Nat
  stack : List Nat
deriving Repr, DecidableEq

/-- `Menu._get_depth` (menu.py lines 1039-1056): the length of the
`_prev` chain. -/
def getDepth (n : Nav) : Nat := n.stack.length

/-- Run `Menu._select` on the state of `self._top._current` (which is
how `_select` resolves its menu) and store the result back, collecting
the scroll request it issues. -/
def navSelect (n : Nav) (t : Int) : Nav × Option Rect :=
  ({ n with menus := n.menus.set n.current (select (n.menus.getD n.current mdefault) t).1 },
    (select (n.menus.getD n.current mdefault) t).2)

/-- The pop loop of `Menu.reset` (menu.py lines 1518-1528): pop up to
`total` entries, redirecting the current pointer through each popped
entry (`self._top._current = prev[1]; self._top._prev = prev[0]`);
stops early at the root when the chain is exhausted. -/
def popN : Nat → List Nat → Nat → List Nat × Nat
  | 0, st, cur => (st, cur)
  | _ + 1, [], cur => ([], cur)
  | t + 1, p :: rest, _ => popN t rest p

/-- `Menu.reset` (menu.py lines 1506-1530).  The `total > 0` contract
assertion is modelled as `none`; otherwise the pop loop runs and the
restored menu's stored index is re-applied through `_select`. -/
def resetNav (n : Nav) (total : Int) : Option (Nav × Option Rect) :=
  if total ≤ 0 then none
  else
    some (navSelect
      { n with
        current := (popN total.toNat n.stack n.current).2,
        stack := (popN total.toNat n.stack n.current).1 }
      ((n.menus.getD (popN total.toNat n.stack n.current).2 mdefault).index : Int))

/-- `Menu._open` (menu.py lines 1488-1504): push the current menu on the
history, redirect the current pointer to the child, then `_select(0)` on
the newly current child. -/
def openNav (n : Nav) (child : Nat) : Nav × Option Rect :=
  navSelect { n with current := child, stack := n.current :: n.stack } 0

/-- `Menu.full_reset` (menu.py lines 1459-1467): `reset(depth)` when the
depth is positive, otherwise do nothing. -/
def fullReset (n : Nav) : Option (Nav × Option Rect) :=
  if 0 < getDepth n then resetNav n (getDepth n : Int) else some (n, none)

lemma set_getD_self {α : Type} (d : α) :
    ∀ (l : List α) (i : Nat), l.set i (l.getD i d) = l
  | [], _ => rfl
  | _ :: _, 0 => rfl
  | x :: xs, i + 1 => by
    simp only [List.set_cons_succ, List.getD_cons_succ]
    rw [set_getD_self d xs i]

/-- Calling `_select` with the menu's own current index is a no-op that
issues no scroll request, whenever the stored index is in range (or the
menu is empty): the source's early return `new_index == current._index`
fires after the modulo normalization. -/
lemma select_self (m : MenuState)
    (h : m.index < m.widgets.length ∨ m.widgets.length = 0) :
    select m (m.index : Int) = (m, none) := by
  unfold select
  rw [selectFuel_succ]
  rcases h with h | h
  · rw [if_neg (by omega), if_pos (by rw [natCast_emod_toNat, Nat.mod_eq_of_lt h])]
  · rw [if_pos h]

/-- C1 counterexample: the claim says that after `reset(n)` completes,
re-applying the restored selection issues a `scroll_to_rect` request for
the restored selected widget.  In this concrete tree (root selected at
index 2, one open sub-menu, history depth 1), `reset(1)` restores the
root but issues no scroll request at all (second component `none`),
because `_select` returns early on the unchanged index. -/
theorem claim_C1_counterexample :
    getDepth { menus := [exSelState2, exSelState], current := 1, stack := [0] } = 1 ∧
      resetNav { menus := [exSelState2, exSelState], current := 1, stack := [0] } 1 =
        some ({ menus := [exSelState2, exSelState], current := 0, stack := [] }, none) := by
  decide

/-- C1 amended: after the pops of `reset` complete, the restored menu's
selection index is passed back to `_select`, but since the index is
unchanged `_select` returns early: no `scroll_to_rect` request is issued
and the restored menu's selection state is unchanged (never stale, but
also never re-scrolled).  Hypotheses: the requested total is positive
and the restored menu's stored index is in range (or that menu is
empty). -/
theorem claim_C1_amended (n : Nav) (total : Int) (hpos : 0 < total)
    (hidx : (n.menus.getD (popN total.toNat n.stack n.current).2 mdefault).index <
        (n.menus.getD (popN total.toNat n.stack n.current).2 mdefault).widgets.length ∨
      (n.menus.getD (popN total.toNat n.stack n.current).2 mdefault).widgets.length = 0) :
    resetNav n total =
      some ({ n with
              current := (popN total.toNat n.stack n.current).2,
              stack := (popN total.toNat n.stack n.current).1 }, none) := by
  unfold resetNav
  rw [if_neg (by omega)]
  unfold navSelect
  rw [select_self _ hidx]
  simp only [set_getD_self]

/-- Witness for C1 amended at a concrete input. -/
theorem claim_C1_amended_witness :
    ((0 : Int) < 1) ∧
      resetNav { menus := [exSelState2, exSelState], current := 1, stack := [0, 0] } 1 =
        some ({ menus := [exSelState2, exSelState], current := 0, stack := [0] }, none) :=
  ⟨by decide,
    claim_C1_amended { menus := [exSelState2, exSelState], current := 1, stack := [0, 0] } 1
      (by decide) (by decide)⟩

/-- C5: from a root state (empty history), `open(A); open(B);
full_reset()` restores the current pointer to the original root menu and
the navigation depth to 0. -/
theorem claim_C5_roundtrip (n : Nav) (a b : Nat) (hroot : n.stack = []) :
    (fullReset (openNav (openNav n a).1 b).1).map
        (fun p => (p.1.current, p.1.stack)) = some (n.current, ([] : List Nat)) := by
  rcases n with ⟨ms, cur, st⟩
  simp only at hroot
  subst hroot
  simp [fullReset, getDepth, openNav, navSelect, resetNav, popN]

/-- Witness for C5 at a concrete input. -/
theorem claim_C5_witness :
    ({ menus := [exSelState2, exSelState], current := 0,
       stack := [] } : Nav).stack = [] ∧
      (fullReset (openNav
          (openNav { menus := [exSelState2, exSelState], current := 0, stack := [] } 1).1
          1).1).map (fun p => (p.1.current, p.1.stack)) = some (0, ([] : List Nat)) :=
  ⟨rfl, claim_C5_roundtrip { menus := [exSelState2, exSelState], current := 0, stack := [] }
    1 1 rfl⟩

lemma popN_exhaust :
    ∀ (t : Nat) (st : List Nat) (cur : Nat), st.length ≤ t →
      popN t st cur = ([], st.getLastD cur) := by
  intro t
  induction t with
  | zero =>
    intro st cur h
    have : st = [] := List.length_eq_zero.mp (by omega)
    subst this
    rfl
  | succ t ih =>
    intro st cur h
    cases st with
    | nil => rfl
    | cons p rest =>
      show popN t rest p = _
      rw [ih rest p (by simpa using h), List.getLastD_cons]

/-- C8: `reset(total)` with `total <= 0` is rejected (the source
assertion fails); with a positive `total` at least the history depth the
pop loop stops at the root without error: the history empties and the
current pointer becomes the deepest recorded ancestor (the root). -/
theorem claim_C8_reset_contract (n : Nav) (total : Int) :
    (total ≤ 0 → resetNav n total = none) ∧
      (0 < total → (n.stack.length : Int) ≤ total →
        ∃ n2 r, resetNav n total = some (n2, r) ∧ n2.stack = [] ∧
          n2.current = n.stack.getLastD n.current) := by
  constructor
  · intro h
    unfold resetNav
    rw [if_pos h]
  · intro h1 h2
    have hlen : n.stack.length ≤ total.toNat := by omega
    unfold resetNav
    rw [if_neg (by omega), popN_exhaust total.toNat n.stack n.current hlen]
    exact ⟨_, _, rfl, rfl, rfl⟩

/-- Witness for C8 at a concrete input: requesting depth 5 with history
depth 1 clamps to the root. -/
theorem claim_C8_witness :
    ((0 : Int) < 5) ∧
      ((({ menus := [exSelState2, exSelState], current := 1,
           stack := [0] } : Nav).stack.length : Int) ≤ 5) ∧
      ∃ n2 r, resetNav { menus := [exSelState2, exSelState], current := 1, stack := [0] } 5 =
          some (n2, r) ∧ n2.stack = [] ∧
        n2.current = ([0] : List Nat).getLastD 1 :=
  ⟨by decide, by decide,
    (claim_C8_reset_contract
      { menus := [exSelState2, exSelState], current := 1, stack := [0] } 5).2
      (by decide) (by decide)⟩

/-! ### Event dispatcher: per-tick routing -/

/-- The per-tick inputs of `Menu.update` (menu.py lines 1178-1210) that
drive its routing decisions.  The menu bar, scroll area and selected
widget are external collaborators whose `update(events)` results are
booleans, so a tick is parametrized by those results. -/
structure TickInputs where
  mainloopLoop : Bool
  hasWidgets : Bool
  menubarConsumes : Bool
  scrollConsumes : Bool
  widgetConsumes : Bool
  othersBreak : Bool
deriving Repr, DecidableEq

/-- Which routing stages of `Menu.update` were offered the event batch
during a tick, plus the returned `break_mainloop` flag. -/
structure TickTrace where
  menubarRan : Bool
  scrollRan : Bool
  widgetRan : Bool
  othersRan : Bool
  breakMainloop : Bool
deriving Repr, DecidableEq

/-- The routing skeleton of `Menu.update` (menu.py lines 1189-1210):
`break_mainloop` starts as `not mainloop_loop`; a stand-alone `if` runs
`menubar.update(events)`; then one `if`/`elif`/`else` chain runs
`scroll.update(events)`, the selected widget's `update(events)` (only
when the widget list is non-empty), and the generic per-event navigation
loop (whose own effect on `break_mainloop` is the input `othersBreak`).
Each stage's `Ran` flag records that its handler was invoked on the
event batch. -/
def updateRoute (i : TickInputs) : TickTrace :=
  if i.scrollConsumes then
    { menubarRan := true, scrollRan := true, widgetRan := false, othersRan := false,
      breakMainloop := true }
  else if i.hasWidgets && i.widgetConsumes then
    { menubarRan := true, scrollRan := true, widgetRan := true, othersRan := false,
      breakMainloop := true }
  else
    { menubarRan := true, scrollRan := true, widgetRan := i.hasWidgets, othersRan := true,
      breakMainloop := (!i.mainloopLoop || i.menubarConsumes) || i.othersBreak }

/-- C3 counterexample: the claim says that when the menu-bar control
region consumes an event, the scroll region, the selected widget and the
generic navigation logic do not process events that tick.  In the source
the menu-bar `if` is not part of the `elif` chain: with the menu bar
consuming and nobody else, all three later stages are still offered the
events. -/
theorem claim_C3_counterexample :
    (updateRoute
        { mainloopLoop := true, hasWidgets := true, menubarConsumes := true,
          scrollConsumes := false, widgetConsumes := false, othersBreak := false }).scrollRan
        = true ∧
      (updateRoute
        { mainloopLoop := true, hasWidgets := true, menubarConsumes := true,
          scrollConsumes := false, widgetConsumes := false, othersBreak := false }).widgetRan
        = true ∧
      (updateRoute
        { mainloopLoop := true, hasWidgets := true, menubarConsumes := true,
          scrollConsumes := false, widgetConsumes := false, othersBreak := false }).othersRan
        = true := by
  decide

/-- C3 amended: menu-bar consumption does not short-circuit routing; it
only raises the returned stop flag.  The short-circuiting stages are the
later ones: the menu bar and the scroll region are always offered the
events; scroll-region consumption stops both the selected widget and the
generic navigation logic; selected-widget consumption stops the generic
navigation logic. -/
theorem claim_C3_amended (i : TickInputs) :
    (updateRoute i).menubarRan = true ∧
      (updateRoute i).scrollRan = true ∧
      (i.scrollConsumes = true →
        (updateRoute i).widgetRan = false ∧ (updateRoute i).othersRan = false) ∧
      (i.scrollConsumes = false → i.hasWidgets = true → i.widgetConsumes = true →
        (updateRoute i).othersRan = false) ∧
      (i.menubarConsumes = true → (updateRoute i).breakMainloop = true) := by
  unfold updateRoute
  rcases i with ⟨ml, hw, mb, sc, wc, ob⟩
  cases ml <;> cases hw <;> cases mb <;> cases sc <;> cases wc <;> cases ob <;> decide

/-- Witness for C3 amended at a concrete input: scroll consumption stops
the selected widget and the generic logic. -/
theorem claim_C3_amended_witness :
    (updateRoute
        { mainloopLoop := true, hasWidgets := true, menubarConsumes := false,
          scrollConsumes := true, widgetConsumes := false, othersBreak := false }).widgetRan
        = false ∧
      (updateRoute
        { mainloopLoop := true, hasWidgets := true, menubarConsumes := false,
          scrollConsumes := true, widgetConsumes := false, othersBreak := false }).othersRan
        = false :=
  (claim_C3_amended
    { mainloopLoop := true, hasWidgets := true, menubarConsumes := false,
      scrollConsumes := true, widgetConsumes := false, othersBreak := false }).2.2.1 rfl

/-! ### Layout engine: column width resolution -/

/-- Python `int()` on a rational: truncation toward zero. -/
def pyInt (q : ℚ) : Int := if 0 ≤ q then ⌊q⌋ else -⌊-q⌋

/-- The inputs consumed by `Menu._update_column_width` (menu.py lines
845-896): column count, rows per column (a huge number when a single
column is unbounded), per-column max widths (`None` = auto), the
widgets' rectangle widths in insertion order, the selection-highlight
horizontal margin, and the menu width.  Python floats are modelled as
rationals; the arithmetic of the source is exact on them. -/
structure ColumnLayout where
  columns : Nat
  rows : Nat
  columnMaxWidth : List (Option ℚ)
  widgetWidths : List ℚ
  selMarginX : ℚ
  width : Int
deriving Repr, DecidableEq

/-- First loop of `Menu._update_column_width` (lines 854-857): start
every column at zero, copying the configured max width where set. -/
def initColWidths (l : ColumnLayout) : List ℚ :=
  (List.range l.columns).map (fun i => (l.columnMaxWidth.getD i none).getD 0)

/-- One iteration of the widget loop (lines 860-867): when the widget's
column (`index // rows`) has no max width configured, raise that
column's width to the widget width plus the selection-highlight
margin. -/
def accStep (l : ColumnLayout) (cw : List ℚ) (index : Nat) : List ℚ :=
  if (l.columnMaxWidth.getD (index / l.rows) none).isNone then
    cw.set (index / l.rows)
      (max (cw.getD (index / l.rows) 0) (l.widgetWidths.getD index 0 + l.selMarginX))
  else cw

/-- The widget loop of lines 860-867 over all widget indices. -/
def accColWidths (l : ColumnLayout) : List ℚ :=
  (List.range l.widgetWidths.length).foldl (accStep l) (initColWidths l)

/-- The proportional scaling step (lines 869-873): when the resolved
widths sum to a positive total smaller than the menu width, multiply
every column width by `width / sum`. -/
def scaledColWidths (l : ColumnLayout) : List ℚ :=
  if 0 < (accColWidths l).sum ∧ (accColWidths l).sum < (l.width : ℚ) then
    (accColWidths l).map (fun q => q * ((l.width : ℚ) / (accColWidths l).sum))
  else accColWidths l

/-- `total_col_width = int(sum(self._column_widths))` (line 876). -/
def totalColWidth (l : ColumnLayout) : Int := pyInt (scaledColWidths l).sum

/-- The column weights of lines 881-882. -/
def columnWeights (l : ColumnLayout) : List ℚ :=
  (List.range l.columns).map
    (fun i => (scaledColWidths l).getD i 0 / ((max (totalColWidth l) 1 : Int) : ℚ))

/-- The column center positions of lines 885-890 (multi-column case):
cumulative weights converted to absolute pixel offsets. -/
def columnPosx (l : ColumnLayout) : List Int :=
  ((List.range l.columns).foldl
    (fun acc i =>
      (acc.1 ++ [pyInt ((totalColWidth l : ℚ) * (acc.2 + (columnWeights l).getD i 0 / 2))],
        acc.2 + (columnWeights l).getD i 0))
    (([] : List Int), (0 : ℚ))).1

/-- `Menu._update_column_width` (lines 845-896): the final column widths
and column center positions.  For a single column the source overwrites
the widths with `[total_col_width]` and centers the single column
(lines 892-894). -/
def updateColumnWidth (l : ColumnLayout) : List ℚ × List Int :=
  if 1 < l.columns then (scaledColWidths l, columnPosx l)
  else ([(totalColWidth l : ℚ)], [pyInt ((totalColWidth l : ℚ) * (1 / 2))])

/-- Modelled from the spec (claim C7 wording): the maximum over a
column's widgets of (widget width + selection-highlight horizontal
margin), zero when the column has no widgets. -/
def specColumnWidth (l : ColumnLayout) (i : Nat) : ℚ :=
  (((List.range l.widgetWidths.length).filter (fun j => j / l.rows = i)).map
    (fun j => l.widgetWidths.getD j 0 + l.selMarginX)).foldl max 0

lemma getD_set_self_q (cw : List ℚ) (k : Nat) (v : ℚ) (h : k < cw.length) :
    (cw.set k v).getD k 0 = v := by
  rw [List.getD_eq_getElem?_getD, List.getElem?_set_self (by simpa using h)]
  rfl

lemma getD_set_ne_q (cw : List ℚ) (k j : Nat) (v : ℚ) (h : k ≠ j) :
    (cw.set k v).getD j 0 = cw.getD j 0 := by
  rw [List.getD_eq_getElem?_getD, List.getElem?_set_ne h, ← List.getD_eq_getElem?_getD]

lemma getD_map_q (xs : List ℚ) (f : ℚ → ℚ) (i : Nat) (h : i < xs.length) :
    (xs.map f).getD i 0 = f (xs.getD i 0) := by
  rw [List.getD_eq_getElem?_getD, List.getElem?_map, List.getElem?_eq_getElem h,
    List.getD_eq_getElem?_getD, List.getElem?_eq_getElem h]
  rfl

lemma accStep_length (l : ColumnLayout) (cw : List ℚ) (index : Nat) :
    (accStep l cw index).length = cw.length := by
  unfold accStep
  split
  · exact List.length_set cw _ _
  · rfl

lemma foldl_accStep_length (l : ColumnLayout) :
    ∀ (idxs : List Nat) (cw : List ℚ), (idxs.foldl (accStep l) cw).length = cw.length := by
  intro idxs
  induction idxs with
  | nil => intro cw; rfl
  | cons j rest ih =>
    intro cw
    rw [List.foldl_cons, ih, accStep_length]

lemma initColWidths_length (l : ColumnLayout) : (initColWidths l).length = l.columns := by
  simp [initColWidths]

lemma accColWidths_length (l : ColumnLayout) : (accColWidths l).length = l.columns := by
  unfold accColWidths
  rw [foldl_accStep_length, initColWidths_length]

lemma foldl_accStep_getD (l : ColumnLayout) :
    ∀ (idxs : List Nat) (cw : List ℚ), cw.length = l.columns →
      ∀ i, i < l.columns →
        (idxs.foldl (accStep l) cw).getD i 0 =
          if (l.columnMaxWidth.getD i none).isNone then
            ((idxs.filter (fun j => j / l.rows = i)).map
              (fun j => l.widgetWidths.getD j 0 + l.selMarginX)).foldl max (cw.getD i 0)
          else cw.getD i 0 := by
  intro idxs
  induction idxs with
  | nil =>
    intro cw _ i _
    simp only [List.foldl_nil, List.filter_nil, List.map_nil]
    split <;> rfl
  | cons j rest ih =>
    intro cw hlen i hi
    rw [List.foldl_cons]
    have hlen2 : (accStep l cw j).length = l.columns := by rw [accStep_length, hlen]
    rw [ih (accStep l cw j) hlen2 i hi]
    by_cases hcol : j / l.rows = i
    · rw [List.filter_cons_of_pos (by simpa using hcol), List.map_cons, List.foldl_cons]
      by_cases hP : (l.columnMaxWidth.getD i none).isNone = true
      · have hcond : (l.columnMaxWidth.getD (j / l.rows) none).isNone = true := by
          rw [hcol]; exact hP
        rw [if_pos hP, if_pos hP]
        unfold accStep
        rw [if_pos hcond, hcol, getD_set_self_q cw i _ (by omega)]
      · have hcond : ¬ (l.columnMaxWidth.getD (j / l.rows) none).isNone = true := by
          rw [hcol]; exact hP
        rw [if_neg hP, if_neg hP]
        unfold accStep
        rw [if_neg hcond]
    · rw [List.filter_cons_of_neg (by simpa using hcol)]
      have hgd : (accStep l cw j).getD i 0 = cw.getD i 0 := by
        unfold accStep
        split
        · exact getD_set_ne_q cw (j / l.rows) i _ hcol
        · rfl
      rw [hgd]

lemma sum_map_mul_q (xs : List ℚ) (c : ℚ) :
    (xs.map (fun q => q * c)).sum = xs.sum * c := by
  induction xs with
  | nil => simp
  | cons a t ih => simp [ih, add_mul]

lemma pyInt_intCast (w : Int) : pyInt (w : ℚ) = w := by
  unfold pyInt
  split
  · exact Int.floor_intCast w
  · rw [← Int.cast_neg, Int.floor_intCast]
    omega

/-- C7: for every column, the resolved width is the configured max width
when set, else the maximum over that column's widgets of (widget width +
selection-highlight horizontal margin); and whenever the resolved widths
sum to a positive total less than the menu width, every column is scaled
by `width / sum` so that the final widths sum exactly to the menu
width. -/
theorem claim_C7_column_widths (l : ColumnLayout) (hcols : 0 < l.columns)
    (hrows : 0 < l.rows) (hmw : l.columnMaxWidth.length = l.columns)
    (hcap : l.widgetWidths.length ≤ l.columns * l.rows) :
    (∀ i, i < l.columns →
      (accColWidths l).getD i 0 =
        match l.columnMaxWidth.getD i none with
        | some m => m
        | none => specColumnWidth l i) ∧
    (0 < (accColWidths l).sum → (accColWidths l).sum < (l.width : ℚ) →
      (updateColumnWidth l).1.sum = (l.width : ℚ) ∧
        ∀ i, i < l.columns →
          (updateColumnWidth l).1.getD i 0 =
            (accColWidths l).getD i 0 * ((l.width : ℚ) / (accColWidths l).sum)) := by
  constructor
  · intro i hi
    have hinit : (initColWidths l).getD i 0 = (l.columnMaxWidth.getD i none).getD 0 := by
      unfold initColWidths
      rw [List.getD_eq_getElem?_getD, List.getElem?_map, List.getElem?_range hi]
      rfl
    have h := foldl_accStep_getD l (List.range l.widgetWidths.length) (initColWidths l)
      (initColWidths_length l) i hi
    unfold accColWidths
    rw [h, hinit]
    cases hM : l.columnMaxWidth.getD i none with
    | none => rw [if_pos Option.isNone_none]; rfl
    | some m => rw [if_neg (by simp)]; rfl
  · intro hS0 hSW
    have hSne : (accColWidths l).sum ≠ 0 := ne_of_gt hS0
    have hscaled : scaledColWidths l =
        (accColWidths l).map (fun q => q * ((l.width : ℚ) / (accColWidths l).sum)) := by
      unfold scaledColWidths
      rw [if_pos ⟨hS0, hSW⟩]
    have hsum : (scaledColWidths l).sum = (l.width : ℚ) := by
      rw [hscaled, sum_map_mul_q, mul_comm, div_mul_cancel₀ _ hSne]
    by_cases hc : 1 < l.columns
    · have hup : (updateColumnWidth l).1 = scaledColWidths l := by
        unfold updateColumnWidth
        rw [if_pos hc]
      rw [hup]
      refine ⟨hsum, ?_⟩
      intro i hi
      rw [hscaled]
      exact getD_map_q _ _ i (by rw [accColWidths_length]; exact hi)
    · have hc1 : l.columns = 1 := by omega
      have htot : totalColWidth l = l.width := by
        unfold totalColWidth
        rw [hsum]
        exact pyInt_intCast l.width
      have hup : (updateColumnWidth l).1 = [(totalColWidth l : ℚ)] := by
        unfold updateColumnWidth
        rw [if_neg hc]
      rw [hup, htot]
      constructor
      · simp
      · intro i hi
        have hi0 : i = 0 := by omega
        subst hi0
        have hlen1 : (accColWidths l).length = 1 := by rw [accColWidths_length, hc1]
        obtain ⟨a, ha⟩ := List.length_eq_one.mp hlen1
        rw [ha]
        simp only [List.getD_cons_zero, List.sum_cons, List.sum_nil, add_zero]
        have hane : a ≠ 0 := by
          rw [ha] at hS0
          simp only [List.sum_cons, List.sum_nil, add_zero] at hS0
          exact ne_of_gt hS0
        rw [mul_comm, div_mul_cancel₀ _ hane]

/-- A concrete layout: two columns of two rows; the first column is auto
(widgets 100 and 50 wide, margin 16), the second has max width 300; the
resolved sum 416 is scaled up to the menu width 600. -/
def exLayout : ColumnLayout :=
  { columns := 2, rows := 2, columnMaxWidth := [none, some 300],
    widgetWidths := [100, 50, 80, 40], selMarginX := 16, width := 600 }

/-- Witness for C7 at a concrete input. -/
theorem claim_C7_witness :
    (0 < exLayout.columns ∧ 0 < exLayout.rows ∧
      exLayout.columnMaxWidth.length = exLayout.columns ∧
      exLayout.widgetWidths.length ≤ exLayout.columns * exLayout.rows) ∧
      ((∀ i, i < exLayout.columns →
        (accColWidths exLayout).getD i 0 =
          match exLayout.columnMaxWidth.getD i none with
          | some m => m
          | none => specColumnWidth exLayout i) ∧
      (0 < (accColWidths exLayout).sum →
        (accColWidths exLayout).sum < (exLayout.width : ℚ) →
        (updateColumnWidth exLayout).1.sum = (exLayout.width : ℚ) ∧
          ∀ i, i < exLayout.columns →
            (updateColumnWidth exLayout).1.getD i 0 =
              (accColWidths exLayout).getD i 0 *
                ((exLayout.width : ℚ) / (accColWidths exLayout).sum))) :=
  ⟨⟨by decide, by decide, by decide, by decide⟩,
    claim_C7_column_widths exLayout (by decide) (by decide) (by decide) (by decide)⟩

/-! ### Widget identity: duplicate-ID rejection -/

/-- The tagged variants of a button action (menu.py lines 479-496):
a sub-menu to open, the back/close/exit sentinel events, or a plain
callback. -/
inductive BtnAction where
  | openSub (child : Nat)
  | backEvent
  | closeEvent
  | exitEvent
  | invoke
deriving Repr, DecidableEq

/-- A menu together with its sub-menu list (`self._submenus`), as
mutated by `Menu.add_button`. -/
structure MenuFull where
  st : MenuState
  submenus : List Nat
deriving Repr, DecidableEq

/-- `Menu._check_id_duplicated` (menu.py lines 991-1001): `true` when a
widget with the given ID is already present (the source raises
`ValueError`). -/
def checkIdDuplicated (ws : List Widget) (wid : String) : Bool :=
  ws.any (fun w => w.id == wid)

/-- `Menu.add_button` (menu.py lines 450-505): when the action is a
sub-menu, `self._current._submenus.append(action)` runs first (line
482); then `_configure_widget` calls `_check_id_duplicated` (line 799),
whose raise is modelled as the `false` flag, before `_append_widget` is
reached.  The result is the menu state visible to the caller after the
call, paired with whether the call succeeded. -/
def addButton (m : MenuFull) (w : Widget) (action : BtnAction) : MenuFull × Bool :=
  match action with
  | .openSub child =>
    if checkIdDuplicated m.st.widgets w.id then
      ({ m with submenus := m.submenus ++ [child] }, false)
    else
      ({ st := appendWidget m.st w, submenus := m.submenus ++ [child] }, true)
  | _ =>
    if checkIdDuplicated m.st.widgets w.id then (m, false)
    else ({ m with st := appendWidget m.st w }, true)

/-- A fresh menu with no widgets and no sub-menus. -/
def emptyMenu : MenuFull := { st := mdefault, submenus := [] }

/-- A button widget with the explicit ID `x`. -/
def widX : Widget :=
  { id := "x", selectable := true, rect := { x := 0, y := 0, w := 100, h := 40 } }

/-- The menu after successfully adding one button with ID `x`. -/
def menuWithX : MenuFull := (addButton emptyMenu widX BtnAction.invoke).1

/-- C9 counterexample: the claim says a duplicate-ID add fails and
leaves the menu's state unchanged.  Adding a second button with the same
ID `x` whose action opens a sub-menu does fail and keeps the widget
count at 1, but the menu's state is changed: the sub-menu list has
already been appended (menu.py line 482) before the duplicate check of
`_configure_widget` raises. -/
theorem claim_C9_counterexample :
    (addButton menuWithX widX (BtnAction.openSub 7)).2 = false ∧
      (addButton menuWithX widX (BtnAction.openSub 7)).1.st.widgets.length = 1 ∧
      (addButton menuWithX widX (BtnAction.openSub 7)).1 ≠ menuWithX := by
  decide

/-- C9 amended: a duplicate-ID add fails and leaves the widget
collection (hence the widget count) unchanged; the full menu state is
unchanged unless the new button's action is a sub-menu link, in which
case the sub-menu list has already been extended by the time the call
fails. -/
theorem claim_C9_amended (m : MenuFull) (w : Widget) (a : BtnAction)
    (hdup : checkIdDuplicated m.st.widgets w.id = true) :
    (addButton m w a).2 = false ∧ (addButton m w a).1.st = m.st ∧
      (∀ child, a = BtnAction.openSub child →
        (addButton m w a).1 = { m with submenus := m.submenus ++ [child] }) ∧
      ((∀ child, a ≠ BtnAction.openSub child) → (addButton m w a).1 = m) := by
  cases a <;> simp [addButton, hdup]

/-- Witness for C9 amended at a concrete input: the second add of ID `x`
(with a plain callback action) fails and the menu is unchanged. -/
theorem claim_C9_amended_witness :
    checkIdDuplicated menuWithX.st.widgets widX.id = true ∧
      ((addButton menuWithX widX BtnAction.invoke).2 = false ∧
        (addButton menuWithX widX BtnAction.invoke).1.st = menuWithX.st ∧
        (∀ child, BtnAction.invoke = BtnAction.openSub child →
          (addButton menuWithX widX BtnAction.invoke).1 =
            { menuWithX with submenus := menuWithX.submenus ++ [child] }) ∧
        ((∀ child, BtnAction.invoke ≠ BtnAction.openSub child) →
          (addButton menuWithX widX BtnAction.invoke).1 = menuWithX)) :=
  ⟨by decide, claim_C9_amended menuWithX widX BtnAction.invoke (by decide)⟩

/-! ### ColorInput widget, RGB mode -/

/-- Python `str.split(sep)` on a character list: split on every
occurrence of the separator, keeping empty components. -/
def splitSep (sep : Char) : List Char → List (List Char)
  | [] => [[]]
  | c :: rest =>
    if c = sep then [] :: splitSep sep rest
    else
      match splitSep sep rest with
      | [] => [[c]]
      | g :: gs => (c :: g) :: gs

/-- Python `int()` on a decimal digit string.  The split components of
an RGB color input consist of digits only, because the widget's valid
characters are the ten digits and the separator. -/
def parseDigits (l : List Char) : Int :=
  ((l.foldl (fun (a : Nat) c => a * 10 + (c.toNat - 48)) 0 : Nat) : Int)

/-- `ColorInput.get_value` in RGB mode (colorinput.py lines 246-272):
split the internal input string on the separator; when there are
exactly three non-empty components, parse them and return the tuple if
the range check of line 266 passes, else the sentinel `(-1,-1,-1)`.
Line 266 of the source reads
`0 <= r <= 255 and 0 <= g <= 255 and 0 <= g <= 255`:
the green channel is checked twice and the blue channel never; the
embedding mirrors this. -/
def rgbGetValue (sep : Char) (input : List Char) : Int × Int × Int :=
  if (splitSep sep input).length = 3 ∧
      (splitSep sep input).getD 0 [] ≠ [] ∧
      (splitSep sep input).getD 1 [] ≠ [] ∧
      (splitSep sep input).getD 2 [] ≠ [] then
    if 0 ≤ parseDigits ((splitSep sep input).getD 0 []) ∧
        parseDigits ((splitSep sep input).getD 0 []) ≤ 255 ∧
        0 ≤ parseDigits ((splitSep sep input).getD 1 []) ∧
        parseDigits ((splitSep sep input).getD 1 []) ≤ 255 ∧
        0 ≤ parseDigits ((splitSep sep input).getD 1 []) ∧
        parseDigits ((splitSep sep input).getD 1 []) ≤ 255 then
      (parseDigits ((splitSep sep input).getD 0 []),
        parseDigits ((splitSep sep input).getD 1 []),
        parseDigits ((splitSep sep input).getD 2 []))
    else (-1, -1, -1)
  else (-1, -1, -1)

/-- `ColorInput.is_valid` (colorinput.py lines 274-284): the value is
valid when no channel of `get_value` is the sentinel `-1`. -/
def rgbIsValid (sep : Char) (input : List Char) : Bool :=
  !((rgbGetValue sep input).1 == -1 || (rgbGetValue sep input).2.1 == -1 ||
    (rgbGetValue sep input).2.2 == -1)

/-- C10 (code bug): for the internal input string `0,0,999` the RGB
`get_value` returns `(0, 0, 999)` - a blue channel far out of range -
and `is_valid` returns `True`, because line 266 of the source checks
the green channel twice and never checks blue.  This contradicts the
claim and the function's own documented behavior of returning the
sentinel for invalid data. -/
theorem claim_C10_blue_channel_unchecked :
    rgbGetValue ',' ("0,0,999".toList) = (0, 0, 999) ∧
      rgbIsValid ',' ("0,0,999".toList) = true ∧
      ¬ ((999 : Int) ≤ 255) := by
  decide

end PygameMenu
